import Mathlib

/-!
Verification of the data-download core of the `lean-cli` repository.

The Python sources embedded here are:
  * `lean/models/data.py` — catalog enums (`DataType`, `SecurityType`,
    `OptionStyle`), the market-hours calendar entry, and the path resolver of
    `SecurityDataProduct`;
  * `lean/components/cloud/data_downloader.py` — the `DataDownloader`
    orchestrator: date enumeration, per-product planning, the overwrite policy
    and the (currently stubbed) file fetch.

Modelling conventions:
  * Dates (`datetime` at midnight) are day numbers: `Nat` counting days since
    1970-01-01, which was a Thursday.  Python's `datetime.weekday()` numbering
    (Monday = 0) is `pyWeekday`.
  * Python code that raises (`AttributeError` on a `None` dereference,
    `ValueError`, a missing calendar entry, `rrule`/`between` on `None`
    bounds) is modelled by functions returning `Option`, with `none` for the
    raising runs.
  * I/O (logging, `click.confirm`, the HTTP stubs, the filesystem) is modelled
    by explicit `Effect` traces and an explicit `DownloaderState`; the answers
    the user would give to `click.confirm` are an oracle list of Booleans
    carried in the state.
-/

namespace LeanCli

/-! ## Calendar dates as day numbers -/

/-- Python's `datetime.weekday()` for a day number: Monday = 0 … Sunday = 6.
Day 0 (1970-01-01) was a Thursday, i.e. weekday 3. -/
def pyWeekday (n : Nat) : Nat := (n + 3) % 7

/-- Civil date (year, month, day) of a day number (days since 1970-01-01),
standard Gregorian-calendar conversion, valid for all days since the epoch. -/
def civilFromDays (n : Nat) : Nat × Nat × Nat :=
  let z := n + 719468
  let era := z / 146097
  let doe := z % 146097
  let yoe := (doe - doe / 1460 + doe / 36524 - doe / 146096) / 365
  let y := yoe + era * 400
  let doy := doe - (365 * yoe + yoe / 4 - yoe / 100)
  let mp := (5 * doy + 2) / 153
  let d := doy - (153 * mp + 2) / 5 + 1
  let m := if mp < 10 then mp + 3 else mp - 9
  (if m ≤ 2 then y + 1 else y, m, d)

/-- Day number (days since 1970-01-01) of a civil date, inverse of
`civilFromDays` on the supported range (dates from 1970 on). -/
def daysFromCivil (y m d : Nat) : Nat :=
  let y' := if m ≤ 2 then y - 1 else y
  let era := y' / 400
  let yoe := y' % 400
  let doy := (153 * (if 2 < m then m - 3 else m + 9) + 2) / 5 + d - 1
  let doe := yoe * 365 + yoe / 4 - yoe / 100 + doy
  era * 146097 + doe - 719468

/-- Python's `str.lower()` restricted to ASCII (all markets, tickers and enum
names in this code are ASCII).  Defined by structural `List.map` so that the
kernel can evaluate it (`String.toLower` is well-founded recursion). -/
def strLower (s : String) : String := String.mk (s.data.map Char.toLower)

/-- Left-pad the decimal representation of `n` with zeros to `width` digits. -/
def padNum (width n : Nat) : String :=
  let s := toString n
  String.mk (List.replicate (width - s.length) '0') ++ s

/-- Python's `date.strftime("%Y%m%d")` on a day number. -/
def strftimeYmd (n : Nat) : String :=
  let c := civilFromDays n
  padNum 4 c.1 ++ padNum 2 c.2.1 ++ padNum 2 c.2.2

/-! ## Catalog enums (`lean/models/data.py`) -/

/-- `DataType` enum (data.py lines 52-65). -/
inductive DataType where
  | Trade
  | Quote
  | OpenInterest
  | MapFactor
  | Coarse
deriving DecidableEq, Repr, Fintype

/-- Python's `Enum.name` for `DataType` members (used via
`self.data_type.name.lower()` in `_get_zip_file_name`). -/
def DataType.name : DataType → String
  | .Trade => "Trade"
  | .Quote => "Quote"
  | .OpenInterest => "OpenInterest"
  | .MapFactor => "MapFactor"
  | .Coarse => "Coarse"

/-- `DataType.is_subscription` (data.py lines 60-65). -/
def DataType.is_subscription (dt : DataType) : Bool :=
  dt = DataType.MapFactor || dt = DataType.Coarse

/-- `SecurityType` enum (data.py lines 68-77). -/
inductive SecurityType where
  | CFD
  | Crypto
  | Equity
  | EquityOption
  | Forex
  | Future
  | FutureOption
  | Index
  | IndexOption
deriving DecidableEq, Repr, Fintype

/-- `SecurityType.get_internal_name` (data.py lines 79-94). -/
def SecurityType.get_internal_name : SecurityType → String
  | .CFD => "Cfd"
  | .Crypto => "Crypto"
  | .Equity => "Equity"
  | .EquityOption => "Option"
  | .Forex => "Forex"
  | .Future => "Future"
  | .FutureOption => "FutureOption"
  | .Index => "Index"
  | .IndexOption => "IndexOption"

/-- `SecurityType.get_data_types` (data.py lines 96-111). -/
def SecurityType.get_data_types : SecurityType → List DataType
  | .CFD => [.Quote]
  | .Crypto => [.Trade, .Quote]
  | .Equity => [.Trade, .Quote, .MapFactor, .Coarse]
  | .EquityOption => [.Trade, .Quote, .OpenInterest]
  | .Forex => [.Quote]
  | .Future => [.Trade, .Quote, .OpenInterest]
  | .FutureOption => [.Trade, .Quote, .OpenInterest]
  | .Index => [.Trade]
  | .IndexOption => [.Trade, .Quote, .OpenInterest]

/-- `SecurityType.get_markets` (data.py lines 113-128). -/
def SecurityType.get_markets : SecurityType → List String
  | .CFD => ["Oanda"]
  | .Crypto => ["Bitfinex", "GDAX"]
  | .Equity => ["USA"]
  | .EquityOption => ["USA"]
  | .Forex => ["FXCM", "Oanda"]
  | .Future => ["CBOE", "CBOT", "CME", "COMEX", "NYMEX"]
  | .FutureOption => ["CBOT", "CME", "COMEX", "NYMEX"]
  | .Index => ["USA"]
  | .IndexOption => ["USA"]

/-- Modelled from the spec: `QCResolution` lives in `lean/models/api.py`,
which is not included under `src/`.  Per spec §3 it is the enum
Tick/Second/Minute/Hour/Daily; per spec §4.4 (and the expected paths in
`src/tests/models/test_data.py`) its `value`, lowercased, is the path
segment, e.g. `"minute"`. -/
inductive QCResolution where
  | Tick
  | Second
  | Minute
  | Hour
  | Daily
deriving DecidableEq, Repr, Fintype

/-- Modelled from the spec: the `value` string of a `QCResolution` member.
Lowercasing it yields the path segments `tick`/`second`/`minute`/`hour`/`daily`
pinned by the expected paths in `src/tests/models/test_data.py`. -/
def QCResolution.value : QCResolution → String
  | .Tick => "Tick"
  | .Second => "Second"
  | .Minute => "Minute"
  | .Hour => "Hour"
  | .Daily => "Daily"

/-- `SecurityType.get_resolutions` (data.py lines 130-154). -/
def SecurityType.get_resolutions (s : SecurityType) (data_type : DataType) :
    List QCResolution :=
  let all_resolutions : List QCResolution := [.Tick, .Second, .Minute, .Hour, .Daily]
  match s with
  | .CFD => all_resolutions
  | .Crypto => all_resolutions
  | .Equity =>
    if data_type = DataType.Trade then all_resolutions
    else [.Tick, .Second, .Minute]
  | .EquityOption => [.Minute]
  | .Forex => all_resolutions
  | .Future => [.Tick, .Second, .Minute]
  | .FutureOption => [.Minute]
  | .Index => all_resolutions
  | .IndexOption => [.Minute]

/-- `OptionStyle` enum (data.py lines 170-172). -/
inductive OptionStyle where
  | American
  | European
deriving DecidableEq, Repr

/-- Python's `Enum.name` for `OptionStyle` members (used via
`self.option_style.name.lower()` in `_get_zip_file_name`). -/
def OptionStyle.name : OptionStyle → String
  | .American => "American"
  | .European => "European"

/-! ## Products and the path resolver (`lean/models/data.py`) -/

/-- `SecurityDataProduct` (data.py lines 175-190).  The `price` and
`purchased` fields of the `Product` base class are never read by the
downloader and are omitted.  Dates are day numbers; the
date-to-expiry-dates mapping is an association list. -/
structure SecurityDataProduct where
  data_type : DataType
  security_type : SecurityType
  market : String
  resolution : QCResolution
  ticker : String
  start_date : Option Nat
  end_date : Option Nat
  option_style : Option OptionStyle
  expiry_dates_by_data_date : Option (List (Nat × List Nat))
deriving DecidableEq, Repr

namespace SecurityDataProduct

/-- `SecurityDataProduct._get_relative_zip_file_directory` (data.py lines
201-225).  `none` models the Python run raising: an `AttributeError` when
`expiry_date.strftime` is reached with `expiry_date = None`, or the
unreachable final `ValueError`. -/
def _get_relative_zip_file_directory (p : SecurityDataProduct)
    (expiry_date : Option Nat) : Option String :=
  let type_name := strLower p.security_type.get_internal_name
  let base_directory :=
    type_name ++ "/" ++ strLower p.market ++ "/" ++ strLower p.resolution.value
  if p.resolution = QCResolution.Hour ∨ p.resolution = QCResolution.Daily then
    some base_directory
  else if p.security_type ∈ [SecurityType.CFD, .Crypto, .Equity, .EquityOption,
      .Forex, .Future, .Index, .IndexOption] then
    some (base_directory ++ "/" ++ strLower p.ticker)
  else if p.security_type = SecurityType.FutureOption then
    match expiry_date with
    | some ed => some (base_directory ++ "/" ++ strLower p.ticker ++ "/" ++ strftimeYmd ed)
    | none => none
  else
    none

/-- `SecurityDataProduct._get_zip_file_name` (data.py lines 227-253).
When `data_date` is `None`, Python's f-string interpolates the string
`"None"` (it does not raise), hence the `"None"` branch.  `none` models the
`AttributeError` raised on `self.option_style.name` when `option_style` is
`None`, or the unreachable final `ValueError`. -/
def _get_zip_file_name (p : SecurityDataProduct) (data_date : Option Nat) :
    Option String :=
  let tick_type := strLower p.data_type.name
  let formatted_date :=
    match data_date with
    | some dd => strftimeYmd dd
    | none => "None"
  let is_hour_or_daily :=
    p.resolution = QCResolution.Hour ∨ p.resolution = QCResolution.Daily
  if p.security_type ∈ [SecurityType.CFD, .Equity, .Forex, .Index] then
    if is_hour_or_daily then
      some (strLower p.ticker ++ ".zip")
    else
      some (formatted_date ++ "_" ++ tick_type ++ ".zip")
  else if p.security_type ∈ [SecurityType.Crypto, .Future] then
    if is_hour_or_daily then
      some (strLower p.ticker ++ "_" ++ tick_type ++ ".zip")
    else
      some (formatted_date ++ "_" ++ tick_type ++ ".zip")
  else if p.security_type ∈ [SecurityType.EquityOption, .IndexOption, .FutureOption] then
    match p.option_style with
    | some style =>
      if is_hour_or_daily then
        some (strLower p.ticker ++ "_" ++ tick_type ++ "_" ++ strLower style.name ++ ".zip")
      else
        some (formatted_date ++ "_" ++ tick_type ++ "_" ++ strLower style.name ++ ".zip")
    | none => none
  else
    none

/-- `SecurityDataProduct.get_relative_path` (data.py lines 192-199):
directory and file name joined with a forward slash (`Path.as_posix`). -/
def get_relative_path (p : SecurityDataProduct) (data_date : Option Nat)
    (expiry_date : Option Nat) : Option String :=
  match p._get_relative_zip_file_directory expiry_date, p._get_zip_file_name data_date with
  | some dir, some file_name => some (dir ++ "/" ++ file_name)
  | _, _ => none

end SecurityDataProduct

/-! ## Market hours database (`lean/models/data.py` lines 25-49) -/

/-- `MarketHoursSegment` (data.py lines 25-28). -/
structure MarketHoursSegment where
  start : String
  «end» : String
  state : String
deriving DecidableEq, Repr

/-- `MarketHoursDatabaseEntry` (data.py lines 31-49).  Holidays are parsed to
midnight datetimes, here day numbers. -/
structure MarketHoursDatabaseEntry where
  dataTimeZone : String
  exchangeTimeZone : String
  monday : List MarketHoursSegment
  tuesday : List MarketHoursSegment
  wednesday : List MarketHoursSegment
  thursday : List MarketHoursSegment
  friday : List MarketHoursSegment
  saturday : List MarketHoursSegment
  sunday : List MarketHoursSegment
  holidays : List Nat
  earlyCloses : List (String × String)
  lateOpens : List (String × String)
deriving DecidableEq, Repr

/-- `getattr(entry, day)` for the weekday names in Python weekday order
`["monday", ..., "sunday"]` (data_downloader.py line 177). -/
def MarketHoursDatabaseEntry.weekdaySegments (entry : MarketHoursDatabaseEntry) :
    Nat → List MarketHoursSegment
  | 0 => entry.monday
  | 1 => entry.tuesday
  | 2 => entry.wednesday
  | 3 => entry.thursday
  | 4 => entry.friday
  | 5 => entry.saturday
  | _ => entry.sunday

/-! ## DataDownloader (`lean/components/cloud/data_downloader.py`) -/

/-- Observable side effects of the downloader: `Logger.info`, `Logger.warn`,
`click.confirm` prompts, and the network/filesystem operations of the fetch
logic (`api_client.data.get_link`, `Path.mkdir(parents=True)`,
`requests.get`, writing a file, moving/renaming a file).  The last five are
in the vocabulary so that theorems can state their absence. -/
inductive Effect where
  | info (msg : String)
  | warn (msg : String)
  | confirmPrompt (msg : String)
  | getLink (relativePath : String)
  | mkdirParents (path : String)
  | httpGet (url : String)
  | writeFile (path : String)
  | moveFile (src dst : String)
deriving DecidableEq, Repr

/-- Whether an effect is a log message or a confirmation prompt (the only
effects `_download_file` can actually produce). -/
def Effect.isLogOrPrompt : Effect → Bool
  | .info _ => true
  | .warn _ => true
  | .confirmPrompt _ => true
  | _ => false

/-- Whether an effect is a `click.confirm` invocation. -/
def Effect.isConfirmPrompt : Effect → Bool
  | .confirmPrompt _ => true
  | _ => false

/-- Whether an effect moves/renames a file. -/
def Effect.isMoveFile : Effect → Bool
  | .moveFile _ _ => true
  | _ => false

/-- Number of `click.confirm` invocations in a trace. -/
def promptCount (tr : List Effect) : Nat :=
  (tr.filter Effect.isConfirmPrompt).length

/-- The mutable state of a `DataDownloader` instance: the tri-state
`_force_overwrite` flag set in `__init__` (data_downloader.py line 49),
together with the oracle of answers the user will give to successive
`click.confirm` prompts. -/
structure DownloaderState where
  force_overwrite : Option Bool
  confirmAnswers : List Bool
deriving DecidableEq, Repr

/-- The `DataDownloader` constructor (data_downloader.py lines 33-49) sets
`self._force_overwrite = None`. -/
def DataDownloader.initial_state (confirmAnswers : List Bool) : DownloaderState :=
  { force_overwrite := none, confirmAnswers := confirmAnswers }

/-- The external collaborators of a run: the configured data directory
(`lean_config_manager.get_data_directory()`), the set of local paths that
exist on disk (`Path.exists`), and the market hours database
(`market_hours_database.get_entry`, `none` when the entry is missing). -/
structure DownloadEnv where
  dataDirectory : String
  existingFiles : List String
  getEntry : SecurityType → String → String → Option MarketHoursDatabaseEntry

/-- `DataDownloader._should_overwrite` (data_downloader.py lines 189-206).
Returns the decision, the emitted effects, and the updated state.  Python's
`overwrite_flag or self._force_overwrite` truthiness reads `None` and
`False` as false. -/
def _should_overwrite (overwrite_flag : Bool) (path : String)
    (st : DownloaderState) : Bool × List Effect × DownloaderState :=
  if overwrite_flag || st.force_overwrite.getD false then
    (true, [], st)
  else
    let warnEffect := Effect.warn (path ++ " already exists, use --overwrite to overwrite it")
    match st.force_overwrite with
    | none =>
      -- `click.confirm(..., default=False)`: the next oracle answer, or the
      -- default `False` when the oracle is exhausted.
      let answer := st.confirmAnswers.headD false
      (answer,
       [warnEffect,
        Effect.confirmPrompt "Do you want to temporarily enable overwriting for the previously selected products?"],
       { force_overwrite := some answer, confirmAnswers := st.confirmAnswers.tail })
    | some b => (b, [warnEffect], st)

/-- `DataDownloader._download_file` (data_downloader.py lines 129-159).
When the local file exists and overwriting is denied, the method returns
after `_should_overwrite`; when the file is absent or overwriting is
allowed, the method still returns before any fetch: the fetch-and-write
logic (lines 144-159) is preceded by an unconditional `return` at line 142
(`TODO: Download file using new API`). -/
def _download_file (relative_file : String) (overwrite_flag : Bool)
    (data_directory : String) (env : DownloadEnv) (st : DownloaderState) :
    List Effect × DownloaderState :=
  let local_path := data_directory ++ "/" ++ relative_file
  if env.existingFiles.contains local_path then
    let r := _should_overwrite overwrite_flag local_path st
    -- deny: `return` at line 139; allow: unconditional `return` at line 142
    (r.2.1, r.2.2)
  else
    ([], st)

/-- The unreachable fetch-and-write logic of `_download_file`
(data_downloader.py lines 144-159), embedded separately: were it reached, it
would resolve a signed link, create the parent directories, fetch the bytes
and — unless the response is a JSON not-found message — write them directly
to the final `local_path` via `local_path.open("wb+")`.  There is no
temporary file and no move. -/
def _download_file_fetch_logic (relative_file : String) (local_path : String)
    (link : String) (responseIsJson responseHasNotFoundMessage : Bool) :
    List Effect :=
  [Effect.getLink relative_file, Effect.mkdirParents local_path, Effect.httpGet link] ++
  (if responseIsJson && responseHasNotFoundMessage then
    [Effect.warn (relative_file ++ " does not exist in the QuantConnect Data Library")]
  else
    [Effect.writeFile local_path])

/-- The loop body of `DataDownloader._download_files` (data_downloader.py
lines 124-127): log a progress message and call `_download_file` for each
file, with `i` the zero-based position of the current file. -/
def _download_files_loop (overwrite_flag : Bool)
    (current_index total_products total_files : Nat) (data_dir : String)
    (env : DownloadEnv) : Nat → List String → DownloaderState →
    List Effect × DownloaderState
  | _, [], st => ([], st)
  | i, file :: rest, st =>
    let logMsg := "[" ++ toString current_index ++ "/" ++ toString total_products ++
      "] [" ++ toString (i + 1) ++ "/" ++ toString total_files ++ "] Downloading " ++ file
    let r := _download_file file overwrite_flag data_dir env st
    let rest' := _download_files_loop overwrite_flag current_index total_products
      total_files data_dir env (i + 1) rest r.2
    (Effect.info logMsg :: r.1 ++ rest'.1, rest'.2)

/-- `DataDownloader._download_files` (data_downloader.py lines 112-127). -/
def _download_files (files : List String) (overwrite_flag : Bool)
    (current_index total_products : Nat) (env : DownloadEnv)
    (st : DownloaderState) : List Effect × DownloaderState :=
  _download_files_loop overwrite_flag current_index total_products files.length
    env.dataDirectory env 0 files st

/-- The weekdays (Python numbering) on which a calendar entry has at least
one trading session (data_downloader.py lines 176-179). -/
def weekdays_with_data (entry : MarketHoursDatabaseEntry) : List Nat :=
  (List.range 7).filter (fun i => !(entry.weekdaySegments i).isEmpty)

/-- The pure core of `DataDownloader._get_dates_with_data`
(data_downloader.py lines 161-187), given the calendar entry and non-null
start/end dates.  `dateutil` semantics embedded here:
`rrule(DAILY, dtstart=start, until=end, byweekday=wds)` yields every date in
`[start, end]` whose weekday is in `wds` — except that a **empty** `wds` is
normalized by `dateutil` to "no weekday constraint" (`rrule.py`:
`if not (self._byweekday or self._bynweekday): self._byweekday = None`), so
every date in the range is yielded; `rruleset.exdate` removes the holidays;
`between(start, end, inc=True)` keeps the already-satisfied inclusive
bounds. -/
def _get_dates_with_data (entry : MarketHoursDatabaseEntry)
    (start_date end_date : Nat) : List Nat :=
  (List.range' start_date (end_date + 1 - start_date)).filter (fun d =>
    ((weekdays_with_data entry).isEmpty ||
      (weekdays_with_data entry).contains (pyWeekday d)) &&
    !(entry.holidays.contains d))

/-- `DataDownloader._get_dates_with_data` as called on a product: looks the
calendar entry up (`none` models the `get_entry` failure) and requires both
bounds (passing `None` bounds to `rrule`/`between` raises `TypeError`;
`none` models that run). -/
def _get_dates_with_data_of_product (env : DownloadEnv)
    (p : SecurityDataProduct) : Option (List Nat) :=
  match env.getEntry p.security_type p.market p.ticker with
  | none => none
  | some entry =>
    match p.start_date, p.end_date with
    | some s, some e => some (_get_dates_with_data entry s e)
    | _, _ => none

/-- Python `dict.get(key, [])` on the date-to-expiry-dates mapping. -/
def dictGet (m : List (Nat × List Nat)) (k : Nat) : List Nat :=
  match m.find? (fun kv => kv.1 == k) with
  | some kv => kv.2
  | none => []

/-- `dict.get(date, [])` where `date` may be the `None` placed in `dates`
for hourly/daily products (data_downloader.py line 78); `None` is never a
key of the `datetime`-keyed dict, so the default `[]` is returned. -/
def dictGetOpt (m : List (Nat × List Nat)) (k : Option Nat) : List Nat :=
  match k with
  | some d => dictGet m d
  | none => []

/-- The inner loop of `download_security_data` for a `FutureOption` product
(data_downloader.py lines 85-86): one `get_relative_path` per expiry date of
the data date. -/
def paths_for_expiries (p : SecurityDataProduct) (date : Option Nat) :
    List Nat → Option (List String)
  | [] => some []
  | ed :: rest =>
    match p.get_relative_path date (some ed), paths_for_expiries p date rest with
    | some f, some fs => some (f :: fs)
    | _, _ => none

/-- The `files`-building loop of `download_security_data`
(data_downloader.py lines 82-88) over the list of dates (each `none` for the
single hourly/daily entry).  `none` models a raising iteration: a
`get_relative_path` failure, or `expiry_dates_by_data_date.get` on `None`
(an `AttributeError`) for a `FutureOption` product. -/
def security_files_loop (p : SecurityDataProduct) :
    List (Option Nat) → Option (List String)
  | [] => some []
  | date :: rest =>
    if p.security_type = SecurityType.FutureOption then
      match p.expiry_dates_by_data_date with
      | none => none
      | some m =>
        match paths_for_expiries p date (dictGetOpt m date), security_files_loop p rest with
        | some fs, some rest' => some (fs ++ rest')
        | _, _ => none
    else
      match p.get_relative_path date none, security_files_loop p rest with
      | some f, some rest' => some (f :: rest')
      | _, _ => none

/-- The planning part of `DataDownloader.download_security_data`
(data_downloader.py lines 77-88): the list of relative paths that will be
passed to `_download_files`. -/
def download_security_data_files (env : DownloadEnv)
    (p : SecurityDataProduct) : Option (List String) :=
  if p.resolution = QCResolution.Hour ∨ p.resolution = QCResolution.Daily then
    security_files_loop p [none]
  else
    match _get_dates_with_data_of_product env p with
    | none => none
    | some ds => security_files_loop p (ds.map some)

/-- `DataDownloader.download_security_data` (data_downloader.py lines
65-90): plan the files, then download them. -/
def download_security_data (env : DownloadEnv) (p : SecurityDataProduct)
    (overwrite_flag : Bool) (current_index total_products : Nat)
    (st : DownloaderState) : Option (List Effect × DownloaderState) :=
  match download_security_data_files env p with
  | none => none
  | some files =>
    some (_download_files files overwrite_flag current_index total_products env st)

/-- `DataDownloader.download_map_factor` (data_downloader.py lines 92-100):
a single log line, no download (`TODO` in the source). -/
def download_map_factor (overwrite_flag : Bool)
    (current_index total_products : Nat) : List Effect :=
  [Effect.info ("[" ++ toString current_index ++ "/" ++ toString total_products ++
    "] Downloading map and factor files")]

/-- `DataDownloader.download_coarse` (data_downloader.py lines 102-110):
a single log line, no download (`TODO` in the source). -/
def download_coarse (overwrite_flag : Bool)
    (current_index total_products : Nat) : List Effect :=
  [Effect.info ("[" ++ toString current_index ++ "/" ++ toString total_products ++
    "] Downloading coarse universe data")]

/-- The `Product` list handled by `download_products`: either a
`SecurityDataProduct` or a base `Product`, of which the downloader only
reads `data_type` (spec §3 models the hierarchy as this tagged union). -/
inductive Product where
  | security (p : SecurityDataProduct)
  | base (data_type : DataType)
deriving DecidableEq, Repr

/-- The loop body of `DataDownloader.download_products` (data_downloader.py
lines 57-63): dispatch one product.  A base product whose `data_type` is
none of `MapFactor`/`Coarse` matches no branch of the `if`/`elif` chain and
is skipped with no effect. -/
def process_product (prod : Product) (overwrite_flag : Bool)
    (current_index total_products : Nat) (env : DownloadEnv)
    (st : DownloaderState) : Option (List Effect × DownloaderState) :=
  match prod with
  | .security p =>
    download_security_data env p overwrite_flag current_index total_products st
  | .base dt =>
    if dt = DataType.MapFactor then
      some (download_map_factor overwrite_flag current_index total_products, st)
    else if dt = DataType.Coarse then
      some (download_coarse overwrite_flag current_index total_products, st)
    else
      some ([], st)

/-- The enumerated loop of `download_products`, with `i` the zero-based
index of the current product. -/
def download_products_loop (overwrite_flag : Bool) (total_products : Nat)
    (env : DownloadEnv) : Nat → List Product → DownloaderState →
    Option (List Effect × DownloaderState)
  | _, [], st => some ([], st)
  | i, prod :: rest, st =>
    match process_product prod overwrite_flag (i + 1) total_products env st with
    | none => none
    | some (tr, st') =>
      match download_products_loop overwrite_flag total_products env (i + 1) rest st' with
      | none => none
      | some (tr', st'') => some (tr ++ tr', st'')

/-- `DataDownloader.download_products` (data_downloader.py lines 51-63). -/
def download_products (products : List Product) (overwrite_flag : Bool)
    (env : DownloadEnv) (st : DownloaderState) :
    Option (List Effect × DownloaderState) :=
  download_products_loop overwrite_flag products.length env 0 products st

/-- Harness: iterate `_should_overwrite` over the paths of a run's existing
files, exactly as consecutive `_download_file` calls on existing files do,
collecting the per-file decisions, the effects and the final state. -/
def shouldOverwriteRun (overwrite_flag : Bool) :
    List String → DownloaderState → List Bool × List Effect × DownloaderState
  | [], st => ([], [], st)
  | path :: rest, st =>
    let r := _should_overwrite overwrite_flag path st
    let rest' := shouldOverwriteRun overwrite_flag rest r.2.2
    (r.1 :: rest'.1, r.2.1 ++ rest'.2.1, rest'.2.2)

/-! ## Concrete fixtures for witnesses and counterexamples -/

/-- A regular trading-session segment. -/
def regularSegment : MarketHoursSegment :=
  { start := "09:30:00", «end» := "16:00:00", state := "market" }

/-- A calendar entry trading Monday through Friday, with 2020-06-17
(day 18430) as a holiday. -/
def usaCalendarEntry : MarketHoursDatabaseEntry :=
  { dataTimeZone := "America/New_York"
    exchangeTimeZone := "America/New_York"
    monday := [regularSegment]
    tuesday := [regularSegment]
    wednesday := [regularSegment]
    thursday := [regularSegment]
    friday := [regularSegment]
    saturday := []
    sunday := []
    holidays := [18430]
    earlyCloses := []
    lateOpens := [] }

/-- A calendar entry with no trading session on any weekday. -/
def emptyCalendarEntry : MarketHoursDatabaseEntry :=
  { dataTimeZone := "UTC"
    exchangeTimeZone := "UTC"
    monday := []
    tuesday := []
    wednesday := []
    thursday := []
    friday := []
    saturday := []
    sunday := []
    holidays := []
    earlyCloses := []
    lateOpens := [] }

/-- SPY equity minute trade data (the first concrete case of spec §8). -/
def spyMinuteTrade : SecurityDataProduct :=
  { data_type := .Trade, security_type := .Equity, market := "USA"
    resolution := .Minute, ticker := "SPY"
    start_date := some 18427, end_date := some 18429
    option_style := none, expiry_dates_by_data_date := none }

/-- SPY equity daily trade data. -/
def spyDailyTrade : SecurityDataProduct :=
  { spyMinuteTrade with resolution := .Daily }

/-- ES future-option minute trade data with an expiry mapping holding two
expiries (20200620, 20200621) for data date 2020-06-15 (day 18428) and no
entry for 2020-06-16 (day 18429). -/
def esFutureOptionMinuteTrade : SecurityDataProduct :=
  { data_type := .Trade, security_type := .FutureOption, market := "CME"
    resolution := .Minute, ticker := "ES"
    start_date := some 18428, end_date := some 18429
    option_style := some .American
    expiry_dates_by_data_date := some [(18428, [18433, 18434])] }

/-- SPX index-option hourly trade data. -/
def spxIndexOptionHourTrade : SecurityDataProduct :=
  { data_type := .Trade, security_type := .IndexOption, market := "USA"
    resolution := .Hour, ticker := "SPX"
    start_date := none, end_date := none
    option_style := some .European, expiry_dates_by_data_date := none }

/-- An environment whose market hours database answers every lookup with
`usaCalendarEntry` and whose local data directory is empty. -/
def envUSA : DownloadEnv :=
  { dataDirectory := "data", existingFiles := []
    getEntry := fun _ _ _ => some usaCalendarEntry }

/-! ## Claim theorems -/

/-- C1: `get_relative_path` produces exactly the concrete paths fixed by the
spec as a compatibility contract: SPY equity minute trade on 2020-06-15, SPY
equity daily, ES future-option minute trade on 2020-06-15 expiring
2020-06-20, and SPX index-option hourly trade, all with forward-slash
separators and lowercase market/resolution/ticker segments. -/
theorem c1_concrete_paths :
    spyMinuteTrade.get_relative_path (some (daysFromCivil 2020 6 15)) none =
      some "equity/usa/minute/spy/20200615_trade.zip" ∧
    spyDailyTrade.get_relative_path none none =
      some "equity/usa/daily/spy.zip" ∧
    esFutureOptionMinuteTrade.get_relative_path (some (daysFromCivil 2020 6 15))
        (some (daysFromCivil 2020 6 20)) =
      some "futureoption/cme/minute/es/20200620/20200615_trade_american.zip" ∧
    spxIndexOptionHourTrade.get_relative_path none none =
      some "indexoption/usa/hour/spx_trade_european.zip" := by
  refine ⟨by decide, by decide, by decide, by decide⟩

/-- C2 as stated is false: supplying an expiry date for a product whose
security type is not `FutureOption` does not fail with any error — the
expiry date is silently ignored and the ordinary path is returned (the
`InvalidArgumentError` of the claim does not occur anywhere in
`get_relative_path`). -/
theorem c2_counterexample :
    spyMinuteTrade.get_relative_path (some 18428) (some 18433) =
      some "equity/usa/minute/spy/20200615_trade.zip" := by decide

/-- C2 amended: for a `FutureOption` product at a sub-hourly resolution,
`get_relative_path` without an expiry date fails (it dereferences the
missing date — an `AttributeError`, not an `InvalidArgumentError`, modelled
as `none`); for a non-`FutureOption` product a supplied expiry date is
silently ignored, producing the same result as no expiry date, with no
error.  (For Hour/Daily resolutions no expiry is needed even for
`FutureOption`.) -/
theorem c2_amended_expiry_handling (p : SecurityDataProduct) (dd ed : Option Nat) :
    (p.security_type = SecurityType.FutureOption →
      ¬(p.resolution = QCResolution.Hour ∨ p.resolution = QCResolution.Daily) →
      p.get_relative_path dd none = none) ∧
    (p.security_type ≠ SecurityType.FutureOption →
      p.get_relative_path dd ed = p.get_relative_path dd none) := by
  obtain ⟨dt, ty, mkt, res, tk, sd, ed', os, m⟩ := p
  constructor
  · rintro rfl hres
    cases res
    case Hour => exact absurd (Or.inl rfl) hres
    case Daily => exact absurd (Or.inr rfl) hres
    all_goals rfl
  · intro hne
    cases ty <;> cases res <;> first | rfl | exact absurd rfl hne

/-- Witness for `c2_amended_expiry_handling`: the ES future-option minute
product with no expiry date fails, and the SPY equity minute product yields
the same path with and without an expiry date. -/
theorem c2_amended_expiry_handling_witness :
    esFutureOptionMinuteTrade.get_relative_path (some 18428) none = none ∧
    spyMinuteTrade.get_relative_path (some 18428) (some 18433) =
      spyMinuteTrade.get_relative_path (some 18428) none :=
  ⟨(c2_amended_expiry_handling esFutureOptionMinuteTrade (some 18428) (some 18433)).1
      rfl (by decide),
   (c2_amended_expiry_handling spyMinuteTrade (some 18428) (some 18433)).2 (by decide)⟩

/-- C7: every security type has a non-empty list of data types and of
markets, and a non-empty list of resolutions for each of its data types; for
Equity quote data the resolutions are exactly Tick/Second/Minute, while for
Equity trade data they are all five. -/
theorem c7_catalog_rules :
    (∀ s : SecurityType, s.get_data_types ≠ [] ∧ s.get_markets ≠ [] ∧
      ∀ dt ∈ s.get_data_types, s.get_resolutions dt ≠ []) ∧
    SecurityType.Equity.get_resolutions DataType.Quote =
      [QCResolution.Tick, QCResolution.Second, QCResolution.Minute] ∧
    SecurityType.Equity.get_resolutions DataType.Trade =
      [QCResolution.Tick, QCResolution.Second, QCResolution.Minute,
       QCResolution.Hour, QCResolution.Daily] := by decide

/-- Witness for `c7_catalog_rules`, instantiated at Equity trade data. -/
theorem c7_catalog_rules_witness :
    SecurityType.Equity.get_data_types ≠ [] ∧
    SecurityType.Equity.get_resolutions DataType.Trade ≠ [] :=
  ⟨(c7_catalog_rules.1 SecurityType.Equity).1,
   (c7_catalog_rules.1 SecurityType.Equity).2.2 DataType.Trade (by decide)⟩

/-- C10: `download_products` dispatches on exactly three shapes — a
`SecurityDataProduct` goes to `download_security_data`, a base product with
data type `MapFactor` or `Coarse` to the respective subscription handler —
and a base product whose data type is `Trade`, `Quote` or `OpenInterest` is
silently skipped: no effects, no state change, no error. -/
theorem c10_dispatch_shapes (overwrite_flag : Bool) (i t : Nat)
    (env : DownloadEnv) (st : DownloaderState) :
    process_product (Product.base DataType.Trade) overwrite_flag i t env st =
      some ([], st) ∧
    process_product (Product.base DataType.Quote) overwrite_flag i t env st =
      some ([], st) ∧
    process_product (Product.base DataType.OpenInterest) overwrite_flag i t env st =
      some ([], st) ∧
    process_product (Product.base DataType.MapFactor) overwrite_flag i t env st =
      some (download_map_factor overwrite_flag i t, st) ∧
    process_product (Product.base DataType.Coarse) overwrite_flag i t env st =
      some (download_coarse overwrite_flag i t, st) ∧
    ∀ p : SecurityDataProduct,
      process_product (Product.security p) overwrite_flag i t env st =
        download_security_data env p overwrite_flag i t st :=
  ⟨rfl, rfl, rfl, rfl, rfl, fun _ => rfl⟩

/-- The ES future-option product at hourly resolution (not offered by the
catalog, but expressible in the data model). -/
def esFutureOptionHourTrade : SecurityDataProduct :=
  { esFutureOptionMinuteTrade with resolution := .Hour }

/-- `paths_for_expiries` yields one path per expiry date when it succeeds. -/
theorem paths_for_expiries_length (p : SecurityDataProduct) (date : Option Nat)
    (eds : List Nat) (fs : List String)
    (h : paths_for_expiries p date eds = some fs) : fs.length = eds.length := by
  induction eds generalizing fs with
  | nil =>
    simp only [paths_for_expiries] at h
    cases h
    rfl
  | cons ed rest ih =>
    simp only [paths_for_expiries] at h
    split at h
    next f fs' hp hr =>
      cases h
      simp [ih fs' hr]
    next =>
      cases h

/-- For a non-`FutureOption` product, a successful `security_files_loop`
yields exactly one path per date. -/
theorem security_files_loop_length_other (p : SecurityDataProduct)
    (hty : p.security_type ≠ SecurityType.FutureOption)
    (dates : List (Option Nat)) (fs : List String)
    (h : security_files_loop p dates = some fs) : fs.length = dates.length := by
  induction dates generalizing fs with
  | nil =>
    simp only [security_files_loop] at h
    cases h
    rfl
  | cons date rest ih =>
    simp only [security_files_loop, if_neg hty] at h
    split at h
    next f fs' hp hr =>
      cases h
      simp [ih fs' hr]
    next =>
      cases h

/-- For a `FutureOption` product with mapping `m`, a successful
`security_files_loop` yields, per date, one path per expiry listed under
that date in `m`. -/
theorem security_files_loop_length_fo (p : SecurityDataProduct)
    (hty : p.security_type = SecurityType.FutureOption)
    (m : List (Nat × List Nat)) (hm : p.expiry_dates_by_data_date = some m)
    (dates : List (Option Nat)) (fs : List String)
    (h : security_files_loop p dates = some fs) :
    fs.length = (dates.map (fun d => (dictGetOpt m d).length)).sum := by
  induction dates generalizing fs with
  | nil =>
    simp only [security_files_loop] at h
    cases h
    rfl
  | cons date rest ih =>
    simp only [security_files_loop, if_pos hty, hm] at h
    split at h
    next fs1 fs2 hp hr =>
      cases h
      simp [paths_for_expiries_length p date _ _ hp, ih fs2 hr]
    next =>
      cases h

/-- C3 as stated is false: for a calendar entry with no trading session on
any weekday, `dateutil` normalizes the empty `byweekday` list to "no
weekday constraint", so `_get_dates_with_data` returns every non-holiday
date of the range — here day 3 (1970-01-04), even though its weekday has no
trading session. -/
theorem c3_counterexample :
    _get_dates_with_data emptyCalendarEntry 3 3 = [3] ∧
    emptyCalendarEntry.weekdaySegments (pyWeekday 3) = [] := by
  refine ⟨by decide, by decide⟩

/-- C3 amended: `_get_dates_with_data` returns a strictly ascending
(duplicate-free) sequence of dates in `[startDate, endDate]`, none of which
is a holiday; each returned date falls on a weekday with at least one
trading session **provided at least one weekday has a session** (with no
such weekday, dateutil drops the weekday constraint and every non-holiday
date in range is returned); the function is pure, so re-running yields the
identical sequence; and `startDate = endDate` yields at most one entry. -/
theorem c3_amended_tradable_dates (entry : MarketHoursDatabaseEntry) (s e : Nat) :
    List.Chain' (· < ·) (_get_dates_with_data entry s e) ∧
    (∀ d ∈ _get_dates_with_data entry s e, s ≤ d ∧ d ≤ e) ∧
    (∀ d ∈ _get_dates_with_data entry s e, d ∉ entry.holidays) ∧
    (weekdays_with_data entry ≠ [] →
      ∀ d ∈ _get_dates_with_data entry s e,
        entry.weekdaySegments (pyWeekday d) ≠ []) ∧
    _get_dates_with_data entry s e = _get_dates_with_data entry s e ∧
    (s = e → (_get_dates_with_data entry s e).length ≤ 1) := by
  refine ⟨?_, ?_, ?_, ?_, rfl, ?_⟩
  · exact List.chain'_iff_pairwise.mpr
      (List.Pairwise.sublist (List.filter_sublist _) (List.pairwise_lt_range' s _))
  · intro d hd
    have hmem := (List.mem_filter.mp hd).1
    have := List.mem_range'_1.mp hmem
    omega
  · intro d hd
    have hcond := (List.mem_filter.mp hd).2
    have h2 := (Bool.and_eq_true_iff.mp hcond).2
    simpa using h2
  · intro hwds d hd
    have hcond := (List.mem_filter.mp hd).2
    have h1 := (Bool.and_eq_true_iff.mp hcond).1
    rcases Bool.or_eq_true_iff.mp h1 with hempty | hcontains
    · exact absurd (List.isEmpty_iff.mp hempty) hwds
    · have hmem : pyWeekday d ∈ weekdays_with_data entry := by
        simpa using hcontains
      have := (List.mem_filter.mp hmem).2
      simpa using this
  · rintro rfl
    have h := List.length_filter_le
      (fun d => ((weekdays_with_data entry).isEmpty ||
        (weekdays_with_data entry).contains (pyWeekday d)) &&
        !(entry.holidays.contains d)) (List.range' s (s + 1 - s))
    simp only [_get_dates_with_data]
    rw [List.length_range'] at h
    omega

/-- Witness for `c3_amended_tradable_dates` at the USA calendar entry with
`startDate = endDate =` 2020-06-15. -/
theorem c3_amended_tradable_dates_witness :
    List.Chain' (· < ·) (_get_dates_with_data usaCalendarEntry 18428 18428) ∧
    (∀ d ∈ _get_dates_with_data usaCalendarEntry 18428 18428, 18428 ≤ d ∧ d ≤ 18428) ∧
    (∀ d ∈ _get_dates_with_data usaCalendarEntry 18428 18428, d ∉ usaCalendarEntry.holidays) ∧
    (∀ d ∈ _get_dates_with_data usaCalendarEntry 18428 18428,
      usaCalendarEntry.weekdaySegments (pyWeekday d) ≠ []) ∧
    (_get_dates_with_data usaCalendarEntry 18428 18428).length ≤ 1 := by
  obtain ⟨h1, h2, h3, h4, -, h6⟩ := c3_amended_tradable_dates usaCalendarEntry 18428 18428
  exact ⟨h1, h2, h3, h4 (by decide), h6 rfl⟩

/-- C4 as stated is false for `FutureOption` products at Hour/Daily
resolution: the planner plans **zero** files, not one — the single `None`
date is looked up in the date-to-expiries mapping and yields no expiry. -/
theorem c4_counterexample :
    download_security_data_files envUSA esFutureOptionHourTrade = some [] := by
  decide

/-- C4 amended: a successful plan contains exactly one file for an
Hour/Daily product of any non-`FutureOption` security type, and zero files
for an Hour/Daily `FutureOption` product; at finer resolutions, with `ds`
the enumerated dates, a `FutureOption` product with mapping `m` yields one
path per expiry listed under each enumerated date (so two paths for a date
with two expiries and none for a date absent from the mapping), and any
other security type yields exactly one path per enumerated date. -/
theorem c4_amended_planner_cardinality (env : DownloadEnv)
    (p : SecurityDataProduct) (fs : List String)
    (h : download_security_data_files env p = some fs) :
    ((p.resolution = QCResolution.Hour ∨ p.resolution = QCResolution.Daily) →
      (p.security_type ≠ SecurityType.FutureOption → fs.length = 1) ∧
      (p.security_type = SecurityType.FutureOption → fs = [])) ∧
    (¬(p.resolution = QCResolution.Hour ∨ p.resolution = QCResolution.Daily) →
      ∀ ds, _get_dates_with_data_of_product env p = some ds →
        (p.security_type ≠ SecurityType.FutureOption → fs.length = ds.length) ∧
        (∀ m, p.security_type = SecurityType.FutureOption →
          p.expiry_dates_by_data_date = some m →
          fs.length = (ds.map (fun d => (dictGet m d).length)).sum)) := by
  constructor
  · intro hres
    simp only [download_security_data_files, if_pos hres] at h
    constructor
    · intro hty
      simpa using security_files_loop_length_other p hty [none] fs h
    · intro hty
      cases hm : p.expiry_dates_by_data_date with
      | none =>
        rw [security_files_loop, if_pos hty, hm] at h
        cases h
      | some m =>
        have := security_files_loop_length_fo p hty m hm [none] fs h
        simp only [List.map_cons, List.map_nil, dictGetOpt, List.sum_cons,
          List.sum_nil, List.length_nil, Nat.add_zero] at this
        exact List.length_eq_zero.mp this
  · intro hres ds hds
    simp only [download_security_data_files, if_neg hres, hds] at h
    constructor
    · intro hty
      simpa using security_files_loop_length_other p hty (ds.map some) fs h
    · intro m hty hm
      have := security_files_loop_length_fo p hty m hm (ds.map some) fs h
      simpa [List.map_map, Function.comp, dictGetOpt] using this

/-- Witness for `c4_amended_planner_cardinality`: the ES future-option
minute product over 2020-06-15..16 plans two paths (two expiries on the
15th, no mapping entry on the 16th), and the SPY daily product plans one. -/
theorem c4_amended_planner_cardinality_witness :
    (["futureoption/cme/minute/es/20200620/20200615_trade_american.zip",
      "futureoption/cme/minute/es/20200621/20200615_trade_american.zip"] : List String).length =
      (([18428, 18429].map (fun d => (dictGet [(18428, [18433, 18434])] d).length)).sum) ∧
    (["equity/usa/daily/spy.zip"] : List String).length = 1 := by
  constructor
  · exact (((c4_amended_planner_cardinality envUSA esFutureOptionMinuteTrade _
      (by decide)).2 (by decide)) [18428, 18429] (by decide)).2
      [(18428, [18433, 18434])] rfl rfl
  · exact ((c4_amended_planner_cardinality envUSA spyDailyTrade _ (by decide)).1
      (Or.inr rfl)).1 (by decide)

/-- `promptCount` distributes over trace concatenation. -/
theorem promptCount_append (l1 l2 : List Effect) :
    promptCount (l1 ++ l2) = promptCount l1 + promptCount l2 := by
  simp [promptCount, List.filter_append]

/-- A leading log line does not change the prompt count. -/
theorem promptCount_info_cons (m : String) (l : List Effect) :
    promptCount (Effect.info m :: l) = promptCount l := rfl

/-- With the run-wide overwrite flag set, `_should_overwrite` allows
immediately: no effect, no prompt, unchanged state. -/
theorem should_overwrite_flag (path : String) (st : DownloaderState) :
    _should_overwrite true path st = (true, [], st) := rfl

/-- With a decision `b` already recorded, `_should_overwrite` returns it
(or `true` under the flag), emits at most a warning, never prompts, and
leaves the state unchanged. -/
theorem should_overwrite_decided (flag : Bool) (path : String) (b : Bool)
    (ans : List Bool) :
    _should_overwrite flag path ⟨some b, ans⟩ =
      (flag || b,
       if flag || b then [] else
         [Effect.warn (path ++ " already exists, use --overwrite to overwrite it")],
       ⟨some b, ans⟩) := by
  cases flag <;> cases b <;> rfl

/-- First existing-file encounter without the flag: `_should_overwrite`
warns, prompts once, and records and returns the oracle's answer. -/
theorem should_overwrite_first (path : String) (ans : List Bool) :
    _should_overwrite false path ⟨none, ans⟩ =
      (ans.headD false,
       [Effect.warn (path ++ " already exists, use --overwrite to overwrite it"),
        Effect.confirmPrompt
          "Do you want to temporarily enable overwriting for the previously selected products?"],
       ⟨some (ans.headD false), ans.tail⟩) := rfl

/-- With the flag set, a whole run never prompts and decides `true` for
every file. -/
theorem shouldOverwriteRun_flag (paths : List String) (st : DownloaderState) :
    shouldOverwriteRun true paths st = (List.replicate paths.length true, [], st) := by
  induction paths generalizing st with
  | nil => rfl
  | cons p rest ih =>
    simp [shouldOverwriteRun, should_overwrite_flag, ih, List.replicate_succ]

/-- With a decision recorded, a whole run never prompts, repeats the
decision for every file, and leaves the state unchanged. -/
theorem shouldOverwriteRun_decided (paths : List String) (b : Bool)
    (ans : List Bool) :
    (shouldOverwriteRun false paths ⟨some b, ans⟩).1 = List.replicate paths.length b ∧
    promptCount (shouldOverwriteRun false paths ⟨some b, ans⟩).2.1 = 0 ∧
    (shouldOverwriteRun false paths ⟨some b, ans⟩).2.2 = ⟨some b, ans⟩ := by
  induction paths with
  | nil => exact ⟨rfl, rfl, rfl⟩
  | cons p rest ih =>
    obtain ⟨ih1, ih2, ih3⟩ := ih
    have hstep := should_overwrite_decided false p b ans
    rw [Bool.false_or] at hstep
    simp only [shouldOverwriteRun, hstep]
    refine ⟨by simp [ih1, List.replicate_succ], ?_, ih3⟩
    rw [promptCount_append, ih2]
    cases b <;> rfl

/-- C5: in a run without the global overwrite flag the confirmation
collaborator is invoked at most once regardless of how many existing files
are encountered, and the first decision is repeated for every file; with
the flag, the collaborator is never invoked and every existing file's
decision is to overwrite. -/
theorem c5_overwrite_policy (paths : List String) (answers : List Bool) :
    (promptCount (shouldOverwriteRun true paths ⟨none, answers⟩).2.1 = 0 ∧
      ∀ d ∈ (shouldOverwriteRun true paths ⟨none, answers⟩).1, d = true) ∧
    (promptCount (shouldOverwriteRun false paths ⟨none, answers⟩).2.1 ≤ 1 ∧
      ∀ d ∈ (shouldOverwriteRun false paths ⟨none, answers⟩).1,
        d = answers.headD false) := by
  constructor
  · rw [shouldOverwriteRun_flag]
    exact ⟨rfl, fun d hd => List.eq_of_mem_replicate hd⟩
  · cases paths with
    | nil => exact ⟨Nat.zero_le 1, by intro d hd; cases hd⟩
    | cons p rest =>
      obtain ⟨h1, h2, h3⟩ :=
        shouldOverwriteRun_decided rest (answers.headD false) answers.tail
      simp only [shouldOverwriteRun, should_overwrite_first]
      constructor
      · rw [promptCount_append, h2]
        exact Nat.le_refl 1
      · intro d hd
        rcases List.mem_cons.mp hd with rfl | hd'
        · rfl
        · rw [h1] at hd'
          exact List.eq_of_mem_replicate hd'

/-- Witness for `c5_overwrite_policy` on a two-file run whose single
confirmation answer is `true`. -/
theorem c5_overwrite_policy_witness :
    promptCount (shouldOverwriteRun true ["data/a.zip"] ⟨none, []⟩).2.1 = 0 ∧
    promptCount
      (shouldOverwriteRun false ["data/a.zip", "data/b.zip"] ⟨none, [true]⟩).2.1 ≤ 1 ∧
    true = ([true] : List Bool).headD false :=
  ⟨(c5_overwrite_policy ["data/a.zip"] []).1.1,
   (c5_overwrite_policy ["data/a.zip", "data/b.zip"] [true]).2.1,
   (c5_overwrite_policy ["data/a.zip", "data/b.zip"] [true]).2.2 true (by decide)⟩

/-- Every effect `_should_overwrite` emits is a log or a prompt, and it
prompts at most once per call. -/
theorem should_overwrite_effects_shape (flag : Bool) (path : String)
    (st : DownloaderState) :
    (∀ eff ∈ (_should_overwrite flag path st).2.1, eff.isLogOrPrompt = true) ∧
    promptCount (_should_overwrite flag path st).2.1 ≤ 1 := by
  unfold _should_overwrite
  split
  · exact ⟨by intro eff heff; exact absurd heff (List.not_mem_nil eff), Nat.zero_le 1⟩
  · cases h : st.force_overwrite with
    | none =>
      simp only []
      constructor
      · intro eff heff
        rcases List.mem_cons.mp heff with rfl | heff'
        · rfl
        · rcases List.mem_cons.mp heff' with rfl | heff''
          · rfl
          · cases heff''
      · exact Nat.le_refl 1
    | some b =>
      constructor
      · intro eff heff
        rcases List.mem_cons.mp heff with rfl | heff'
        · rfl
        · cases heff'
      · exact Nat.zero_le 1

/-- C8: `_download_file` performs no network request and no filesystem
write whatsoever — its only observable effects are log messages and at most
one confirmation prompt (the fetch logic of the source is preceded by an
unconditional early return). -/
theorem c8_download_file_no_transfer (relative_file : String)
    (overwrite_flag : Bool) (data_directory : String) (env : DownloadEnv)
    (st : DownloaderState) :
    (∀ eff ∈ (_download_file relative_file overwrite_flag data_directory env st).1,
      eff.isLogOrPrompt = true) ∧
    promptCount (_download_file relative_file overwrite_flag data_directory env st).1 ≤ 1 := by
  unfold _download_file
  dsimp only
  split
  · exact should_overwrite_effects_shape overwrite_flag
      (data_directory ++ "/" ++ relative_file) st
  · exact ⟨by intro eff heff; exact absurd heff (List.not_mem_nil eff), Nat.zero_le 1⟩

/-- An environment in which `data/equity/usa/daily/spy.zip` already exists
locally. -/
def envExistingSpy : DownloadEnv :=
  { dataDirectory := "data"
    existingFiles := ["data/equity/usa/daily/spy.zip"]
    getEntry := fun _ _ _ => none }

/-- Witness for `c8_download_file_no_transfer` on an existing file (the
call warns and prompts, and still transfers nothing). -/
theorem c8_download_file_no_transfer_witness :
    (Effect.warn
      "data/equity/usa/daily/spy.zip already exists, use --overwrite to overwrite it").isLogOrPrompt = true ∧
    promptCount
      (_download_file "equity/usa/daily/spy.zip" false "data" envExistingSpy
        ⟨none, []⟩).1 ≤ 1 :=
  ⟨(c8_download_file_no_transfer "equity/usa/daily/spy.zip" false "data"
      envExistingSpy ⟨none, []⟩).1 _ (by decide),
   (c8_download_file_no_transfer "equity/usa/daily/spy.zip" false "data"
      envExistingSpy ⟨none, []⟩).2⟩

/-- Once a decision is recorded, `_download_file` never prompts and leaves
the state unchanged. -/
theorem download_file_locked (file : String) (flag : Bool) (dir : String)
    (env : DownloadEnv) (b : Bool) (ans : List Bool) :
    (_download_file file flag dir env ⟨some b, ans⟩).2 = ⟨some b, ans⟩ ∧
    promptCount (_download_file file flag dir env ⟨some b, ans⟩).1 = 0 := by
  unfold _download_file
  dsimp only
  split
  · cases flag <;> cases b <;> exact ⟨rfl, rfl⟩
  · exact ⟨rfl, rfl⟩

/-- Once a decision is recorded, the `_download_files` loop never prompts
and leaves the state unchanged. -/
theorem download_files_loop_locked (flag : Bool) (ci tp tf : Nat)
    (dir : String) (env : DownloadEnv) (files : List String) (i : Nat)
    (b : Bool) (ans : List Bool) :
    (_download_files_loop flag ci tp tf dir env i files ⟨some b, ans⟩).2 =
      ⟨some b, ans⟩ ∧
    promptCount (_download_files_loop flag ci tp tf dir env i files ⟨some b, ans⟩).1 = 0 := by
  induction files generalizing i with
  | nil => exact ⟨rfl, rfl⟩
  | cons f rest ih =>
    obtain ⟨hd1, hd2⟩ := download_file_locked f flag dir env b ans
    obtain ⟨ih1, ih2⟩ := ih (i + 1)
    simp only [_download_files_loop, hd1]
    exact ⟨ih1, by rw [promptCount_append, promptCount_info_cons, hd2, ih2]⟩

/-- Once a decision is recorded, `download_security_data` never prompts and
leaves the state unchanged. -/
theorem download_security_data_locked (env : DownloadEnv)
    (p : SecurityDataProduct) (flag : Bool) (ci tp : Nat) (b : Bool)
    (ans : List Bool) (tr : List Effect) (st' : DownloaderState)
    (h : download_security_data env p flag ci tp ⟨some b, ans⟩ = some (tr, st')) :
    promptCount tr = 0 ∧ st' = ⟨some b, ans⟩ := by
  unfold download_security_data at h
  cases hplan : download_security_data_files env p with
  | none => rw [hplan] at h; cases h
  | some files =>
    rw [hplan] at h
    injection h with h
    obtain ⟨h1, h2⟩ := download_files_loop_locked flag ci tp files.length
      env.dataDirectory env files 0 b ans
    rw [show tr = (_download_files files flag ci tp env ⟨some b, ans⟩).1 from by rw [h],
        show st' = (_download_files files flag ci tp env ⟨some b, ans⟩).2 from by rw [h]]
    exact ⟨h2, h1⟩

/-- Once a decision is recorded, dispatching any single product never
prompts and leaves the state unchanged. -/
theorem process_product_locked (prod : Product) (flag : Bool) (ci tp : Nat)
    (env : DownloadEnv) (b : Bool) (ans : List Bool) (tr : List Effect)
    (st' : DownloaderState)
    (h : process_product prod flag ci tp env ⟨some b, ans⟩ = some (tr, st')) :
    promptCount tr = 0 ∧ st' = ⟨some b, ans⟩ := by
  cases prod with
  | security p => exact download_security_data_locked env p flag ci tp b ans tr st' h
  | base dt =>
    by_cases h1 : dt = DataType.MapFactor
    · simp only [process_product, if_pos h1] at h
      injection h with h
      injection h with ha hb
      subst ha
      subst hb
      exact ⟨rfl, rfl⟩
    · by_cases h2 : dt = DataType.Coarse
      · simp only [process_product, if_neg h1, if_pos h2] at h
        injection h with h
        injection h with ha hb
        subst ha
        subst hb
        exact ⟨rfl, rfl⟩
      · simp only [process_product, if_neg h1, if_neg h2] at h
        injection h with h
        injection h with ha hb
        subst ha
        subst hb
        exact ⟨rfl, rfl⟩

/-- Once a decision is recorded, the whole `download_products` loop never
prompts and leaves the state unchanged. -/
theorem download_products_loop_locked (flag : Bool) (tp : Nat)
    (env : DownloadEnv) (products : List Product) (i : Nat) (b : Bool)
    (ans : List Bool) (tr : List Effect) (st' : DownloaderState)
    (h : download_products_loop flag tp env i products ⟨some b, ans⟩ =
      some (tr, st')) :
    promptCount tr = 0 ∧ st' = ⟨some b, ans⟩ := by
  induction products generalizing i tr st' with
  | nil =>
    simp only [download_products_loop] at h
    injection h with h
    injection h with ha hb
    subst ha
    subst hb
    exact ⟨rfl, rfl⟩
  | cons prod rest ih =>
    simp only [download_products_loop] at h
    split at h
    next => cases h
    next tr1 st1 hp =>
      obtain ⟨hp1, hp2⟩ := process_product_locked prod flag (i + 1) tp env b ans tr1 st1 hp
      subst hp2
      split at h
      next => cases h
      next tr2 st2 hrest =>
        obtain ⟨hr1, hr2⟩ := ih (i + 1) tr2 st2 hrest
        injection h with h
        injection h with ha hb
        subst hb
        rw [← ha, promptCount_append, hp1, hr1]
        exact ⟨rfl, hr2⟩

/-- C9: `_force_overwrite` is set to `None` once, in the constructor; once
a decision `b` is recorded on the instance, any later `download_products`
call reuses it — it never prompts again and leaves the recorded decision in
place (the flag's lifetime is the instance, not a single batch run). -/
theorem c9_decision_outlives_batch (products : List Product)
    (overwrite_flag : Bool) (env : DownloadEnv) (b : Bool) (ans : List Bool)
    (tr : List Effect) (st' : DownloaderState)
    (hrun : download_products products overwrite_flag env ⟨some b, ans⟩ =
      some (tr, st')) :
    promptCount tr = 0 ∧ st' = ⟨some b, ans⟩ ∧
    (DataDownloader.initial_state ans).force_overwrite = none := by
  obtain ⟨h1, h2⟩ := download_products_loop_locked overwrite_flag
    products.length env products 0 b ans tr st' hrun
  exact ⟨h1, h2, rfl⟩

/-- Witness for `c9_decision_outlives_batch`: a later two-product run on an
instance that has already recorded the decision `true`. -/
theorem c9_decision_outlives_batch_witness :
    promptCount [Effect.info "[1/2] Downloading map and factor files"] = 0 ∧
    (⟨some true, []⟩ : DownloaderState) = ⟨some true, []⟩ ∧
    (DataDownloader.initial_state []).force_overwrite = none :=
  c9_decision_outlives_batch
    [Product.base DataType.MapFactor, Product.base DataType.Trade] false envUSA
    true [] [Effect.info "[1/2] Downloading map and factor files"]
    ⟨some true, []⟩ (by decide)

/-- C6 (code bug): no file ever transitions to Fetched — `_download_file`
returns before any transfer (here: on an absent local file it produces no
effect at all), and the unreachable fetch logic it leaves behind would
write the response bytes directly to the final path with no temporary
location and no move. -/
theorem c6_no_atomic_persistence :
    _download_file "equity/usa/daily/spy.zip" false "data"
      { dataDirectory := "data", existingFiles := [],
        getEntry := fun _ _ _ => none } ⟨none, []⟩ = ([], ⟨none, []⟩) ∧
    Effect.writeFile "data/equity/usa/daily/spy.zip" ∈
      _download_file_fetch_logic "equity/usa/daily/spy.zip"
        "data/equity/usa/daily/spy.zip" "https://signed-link" false false ∧
    (_download_file_fetch_logic "equity/usa/daily/spy.zip"
        "data/equity/usa/daily/spy.zip" "https://signed-link" false false).all
      (fun eff => !eff.isMoveFile) = true := by
  refine ⟨by decide, by decide, by decide⟩

end LeanCli
